import Mathlib

/-!
Verification of the Conversation Orchestration Engine of the sales-assistant
repository.  The Python source is shallowly embedded: dictionaries become
association lists or string-indexed functions, floats become exact rationals,
code that can raise (pydantic validation, dictionary indexing) returns
`Except`/`Option`.  Each embedded definition carries a comment naming the
source function it is translated from.
-/

namespace SalesEngine

/-- `startsWithChars needle hay` is true when `needle` is a prefix of `hay`
(character lists). -/
def startsWithChars : List Char → List Char → Bool
  | [], _ => true
  | _ :: _, [] => false
  | a :: as, b :: bs => a == b && startsWithChars as bs

/-- `containsChars needle hay` is true when `needle` occurs contiguously in
`hay`; embeds the Python substring test `needle in hay`. -/
def containsChars (needle : List Char) : List Char → Bool
  | [] => startsWithChars needle []
  | c :: rest => startsWithChars needle (c :: rest) || containsChars needle rest

/-- Python `needle in haystack` on strings. -/
def containsStr (haystack needle : String) : Bool :=
  containsChars needle.data haystack.data

/-- Python `str.lower()` (ASCII case folding, which covers every string the
embedded code lowers). -/
def pyLower (s : String) : String :=
  String.mk (s.data.map Char.toLower)

/-- Drop leading whitespace characters. -/
def dropLeadingWS : List Char → List Char
  | [] => []
  | c :: rest => if c.isWhitespace then dropLeadingWS rest else c :: rest

/-- Python `str.strip()`: remove leading and trailing whitespace. -/
def pyStrip (s : String) : String :=
  String.mk ((dropLeadingWS (dropLeadingWS s.data).reverse).reverse)

/-- A transcript message; embeds the fields of `models/schemas.py` `Message`
that the orchestration logic reads (`speaker`, `text`, `stage`); id,
timestamp, confidence and metadata are never consulted by the embedded
operations. -/
structure Message where
  speaker : String
  text : String
  stage : String
deriving DecidableEq

/-- `models/schemas.py` `CustomerProfile`. -/
structure CustomerProfile where
  name : Option String := none
  company : Option String := none
  role : Option String := none
  pain_points : List String := []
  interests : List String := []
  budget_range : Option String := none
  decision_authority : Option String := none
  timeline : Option String := none
  sentiment : Option String := none
deriving DecidableEq

/-- The insight map handed to `ConversationService.update_customer_profile`.
`none` models both an absent key and Python `None` (neither updates). -/
structure Insights where
  name : Option String := none
  company : Option String := none
  role : Option String := none
  pain_points : Option (List String) := none
  interests : Option (List String) := none
  budget_range : Option String := none
  decision_authority : Option String := none
  timeline : Option String := none
  sentiment : Option String := none
deriving DecidableEq

/-- Scalar rule of `update_customer_profile`: the field is overwritten only
when the key is present and truthy (for strings: non-empty). -/
def scalarUpdate (old new_value : Option String) : Option String :=
  match new_value with
  | none => old
  | some s => if s = "" then old else some s

/-- List rule of `update_customer_profile`: items of the insight list that are
not already in the profile list are appended (lines 198-207 of
`services/conversation.py`). -/
def listMerge (old : List String) (new_value : Option (List String)) : List String :=
  match new_value with
  | none => old
  | some l => old ++ l.filter (fun x => !(old.contains x))

/-- `ConversationService.update_customer_profile`. -/
def update_customer_profile (profile : CustomerProfile) (new_insights : Insights) :
    CustomerProfile :=
  { name := scalarUpdate profile.name new_insights.name
    company := scalarUpdate profile.company new_insights.company
    role := scalarUpdate profile.role new_insights.role
    pain_points := listMerge profile.pain_points new_insights.pain_points
    interests := listMerge profile.interests new_insights.interests
    budget_range := scalarUpdate profile.budget_range new_insights.budget_range
    decision_authority := scalarUpdate profile.decision_authority new_insights.decision_authority
    timeline := scalarUpdate profile.timeline new_insights.timeline
    sentiment := scalarUpdate profile.sentiment new_insights.sentiment }

/-- Truthiness of an optional string field in Python (`None` and `""` are
falsy). -/
def optTruthy : Option String → Bool
  | none => false
  | some s => !(s == "")

/-- `ConversationService._initialize_stage_transitions` (the valid-transition
table; identical to the `next_stages` fields of the stage table). -/
def stage_transitions : List (String × List String) :=
  [("opening", ["discovery"]),
   ("discovery", ["pitch", "objection"]),
   ("pitch", ["objection", "closing"]),
   ("objection", ["pitch", "closing", "discovery"]),
   ("closing", [])]

/-- `next_stages` field of each `SalesStage` built by
`ConversationService._initialize_sales_stages` (the objectives, key
questions and success criteria of the table are never read by the embedded
operations). -/
def sales_stage_next_stages : List (String × List String) :=
  [("opening", ["discovery"]),
   ("discovery", ["pitch", "objection"]),
   ("pitch", ["objection", "closing"]),
   ("objection", ["pitch", "closing", "discovery"]),
   ("closing", [])]

/-- `ConversationService.get_valid_transitions` (`.get(stage, [])`). -/
def get_valid_transitions (current_stage : String) : List String :=
  ((stage_transitions.lookup current_stage).getD [])

/-- `ConversationService._calculate_stage_completion`.  Floats are embedded
as exact rationals. -/
def calculate_stage_completion (stage : String) (recent_messages : List Message)
    (customer_profile : CustomerProfile) : ℚ :=
  if stage = "opening" then
    let has_greeting := recent_messages.any
      (fun m => containsStr (pyLower m.text) "hello" || containsStr (pyLower m.text) "hi")
    let has_engagement :=
      (recent_messages.filter (fun m => m.speaker == "customer")).length ≥ 2
    if has_greeting ∧ has_engagement then 0.8 else 0.3
  else if stage = "discovery" then
    let pain_points_score := min ((customer_profile.pain_points.length : ℚ) * 0.3) 1.0
    let qualification_score : ℚ :=
      if optTruthy customer_profile.budget_range || optTruthy customer_profile.timeline
      then 0.5 else 0
    (pain_points_score + qualification_score) / 2
  else if stage = "pitch" then
    let joined := String.intercalate " " (recent_messages.map (fun m => (pyLower m.text)))
    let has_value_prop :=
      (["value", "benefit", "solution", "help", "improve"] : List String).any
        (fun w => containsStr joined w)
    let customer_questions :=
      (recent_messages.filter
        (fun m => m.speaker == "customer" && containsStr m.text "?")).length
    if has_value_prop ∧ customer_questions ≥ 1 then 0.7 else 0.4
  else if stage = "objection" then
    let joined := String.intercalate " " (recent_messages.map (fun m => (pyLower m.text)))
    let has_objections :=
      (["concern", "worry", "but", "however", "issue"] : List String).any
        (fun w => containsStr joined w)
    let has_resolution :=
      (["understand", "address", "solution", "resolve"] : List String).any
        (fun w => containsStr joined w)
    if has_objections ∧ has_resolution then 0.8 else 0.3
  else if stage = "closing" then
    let joined := String.intercalate " "
      ((recent_messages.filter (fun m => m.speaker == "customer")).map
        (fun m => (pyLower m.text)))
    let has_commitment :=
      (["yes", "agree", "proceed", "forward", "start"] : List String).any
        (fun w => containsStr joined w)
    if has_commitment then 0.9 else 0.2
  else 0.5

/-- Python `history[-5:] if len(history) >= 5 else history` (the two branches
agree: both are the last five elements). -/
def lastFive (history : List Message) : List Message :=
  history.drop (history.length - 5)

/-- Result dictionary of `ConversationService.determine_next_stage`; the
invalid-stage branch carries no completion score. -/
structure NextStageResult where
  should_advance : Bool
  next_stage : Option String
  completion_score : Option ℚ
deriving DecidableEq

/-- `ConversationService.determine_next_stage`.  Note that when the stage is
complete but `next_stages` is empty the code falls through to the final
`should_advance: False` return. -/
def determine_next_stage (current_stage : String) (conversation_history : List Message)
    (customer_profile : CustomerProfile) : NextStageResult :=
  match sales_stage_next_stages.lookup current_stage with
  | none => { should_advance := false, next_stage := none, completion_score := none }
  | some possible_next_stages =>
    let recent_messages := lastFive conversation_history
    let completion_score :=
      calculate_stage_completion current_stage recent_messages customer_profile
    if completion_score ≥ 0.7 then
      match possible_next_stages with
      | [] =>
        { should_advance := false, next_stage := none
          completion_score := some completion_score }
      | first :: _ =>
        let next_stage :=
          if current_stage = "discovery" ∧ customer_profile.pain_points.length ≥ 2 then
            "pitch"
          else if current_stage = "pitch" ∧ recent_messages.any
              (fun m => m.speaker == "customer" &&
                (containsStr (pyLower m.text) "concern" || containsStr (pyLower m.text) "but"))
            then "objection"
          else first
        { should_advance := true, next_stage := some next_stage
          completion_score := some completion_score }
    else
      { should_advance := false, next_stage := none
        completion_score := some completion_score }

/-- One entry of `InterruptAgent.interrupt_types`. -/
structure InterruptTypeInfo where
  indicators : List String
  strategy : String
  priority : String
deriving DecidableEq

/-- `InterruptAgent.interrupt_types`, in Python dict insertion order.  Note
that the pseudo-type `general` has no entry. -/
def interrupt_types : List (String × InterruptTypeInfo) :=
  [("question",
    ⟨["?", "how", "what", "when", "where", "why", "can you"],
     "Answer directly then redirect", "high"⟩),
   ("objection",
    ⟨["but", "however", "concern", "worry", "issue", "problem"],
     "Acknowledge, address, then continue", "high"⟩),
   ("tangent",
    ⟨["by the way", "also", "speaking of", "reminds me"],
     "Acknowledge and redirect back", "medium"⟩),
   ("clarification",
    ⟨["wait", "hold on", "confused", "don\x27t understand"],
     "Stop and clarify immediately", "high"⟩),
   ("urgency",
    ⟨["urgent", "important", "immediately", "asap", "emergency"],
     "Address urgency then assess impact", "critical"⟩),
   ("emotional",
    ⟨["frustrated", "angry", "upset", "disappointed"],
     "Acknowledge emotion and empathize", "critical"⟩),
   ("information",
    ⟨["just to let you know", "forgot to mention", "by the way"],
     "Note information and continue", "low"⟩),
   ("positive",
    ⟨["great", "excellent", "love", "perfect", "amazing"],
     "Acknowledge positively and build momentum", "medium"⟩)]

/-- Number of indicator phrases of one interrupt type found in the lowered
text (`sum(1 for indicator in ... if indicator in text_lower)`). -/
def indicatorScore (text_lower : String) (info : InterruptTypeInfo) : Nat :=
  (info.indicators.filter (fun indicator => containsStr text_lower indicator)).length

/-- The type-selection loop of `InterruptAgent._analyze_interruption`: start
from `("general", 0)` and replace the running best only on a strictly larger
score. -/
def pick_interrupt_type (text_lower : String) : String × Nat :=
  interrupt_types.foldl
    (fun best p =>
      let score := indicatorScore text_lower p.2
      if score > best.2 then (p.1, score) else best)
    ("general", 0)

/-- `InterruptAgent._assess_emotional_state` (ordered table, first match,
default neutral). -/
def emotional_indicators : List (String × List String) :=
  [("frustrated", ["frustrated", "annoying", "difficult", "hate"]),
   ("excited", ["excited", "great", "love", "amazing", "fantastic"]),
   ("concerned", ["worried", "concerned", "nervous", "unsure"]),
   ("confused", ["confused", "don\x27t understand", "unclear", "lost"]),
   ("impatient", ["hurry", "quickly", "fast", "urgent", "time"]),
   ("skeptical", ["really", "sure", "doubt", "believe"]),
   ("neutral", [])]

/-- `InterruptAgent._assess_emotional_state`. -/
def assess_emotional_state (text : String) : String :=
  match emotional_indicators.find?
      (fun p => p.2.any (fun indicator => containsStr text indicator)) with
  | some p => p.1
  | none => "neutral"

/-- `InterruptAgent._assess_flow_impact` (the `context` parameter of the
source is never read). -/
def assess_flow_impact (interrupt_type : String) (text : String) : String :=
  if interrupt_type = "urgency" ∨ interrupt_type = "emotional" then "high"
  else if interrupt_type = "objection" ∨ interrupt_type = "clarification" then "high"
  else if interrupt_type = "question" then
    if text.length > 50 ∨ containsStr text "?" then "medium" else "low"
  else if interrupt_type = "tangent" ∨ interrupt_type = "information" then "medium"
  else if interrupt_type = "positive" then "low"
  else "medium"

/-- Stage keyword table of `InterruptAgent._assess_topic_relevance`. -/
def stage_keywords : List (String × List String) :=
  [("opening", ["name", "company", "role", "background"]),
   ("discovery", ["problem", "challenge", "need", "current", "process"]),
   ("pitch", ["solution", "feature", "benefit", "value", "capability"]),
   ("objection", ["concern", "worry", "but", "however", "issue"]),
   ("closing", ["decision", "timeline", "next step", "start", "implement"])]

/-- `InterruptAgent._assess_topic_relevance`. -/
def assess_topic_relevance (text : String) (current_stage : String) : String :=
  let relevant_keywords := (stage_keywords.lookup current_stage).getD []
  let relevance_score :=
    (relevant_keywords.filter (fun keyword => containsStr text keyword)).length
  if relevance_score ≥ 2 then "high"
  else if relevance_score ≥ 1 then "medium"
  else "low"

/-- The classification dictionary produced by
`InterruptAgent._analyze_interruption` (the pass-through `original_text` and
`speaker` entries are omitted). -/
structure InterruptAnalysis where
  type : String
  priority : String
  confidence : ℚ
  emotional_state : String
  flow_impact : String
  topic_relevance : String
deriving DecidableEq

/-- `InterruptAgent._analyze_interruption`.  The priority lookup
`self.interrupt_types[interrupt_type]["priority"]` indexes the type table
with the chosen type and raises `KeyError` when the key is absent, which is
embedded as `none`. -/
def analyze_interruption (text : String) (current_stage : String) :
    Option InterruptAnalysis :=
  let text_lower := pyStrip (pyLower text)
  let picked := pick_interrupt_type text_lower
  match interrupt_types.lookup picked.1 with
  | none => none
  | some info =>
    some
      { type := picked.1
        priority := info.priority
        confidence := min 0.9 (0.5 + (picked.2 : ℚ) * 0.1)
        emotional_state := assess_emotional_state text_lower
        flow_impact := assess_flow_impact picked.1 text_lower
        topic_relevance := assess_topic_relevance text_lower current_stage }

/-- `InterruptAgent.should_pause_main_conversation`. -/
def should_pause_main_conversation (analysis : InterruptAnalysis) : Bool :=
  (["critical", "high"] : List String).contains analysis.priority ||
  analysis.flow_impact == "high" ||
  (["urgency", "emotional", "clarification"] : List String).contains analysis.type

/-- `engagement_scores.get(engagement, 0.0)` of
`ClosingAgent._calculate_readiness_score`. -/
def engagement_scores (engagement : String) : ℚ :=
  if engagement = "high" then 0.2
  else if engagement = "medium" then 0.1
  else if engagement = "low" then 0.0
  else 0.0

/-- `authority_scores.get(authority, 0.0)`. -/
def authority_scores (authority : String) : ℚ :=
  if authority = "high" then 0.15
  else if authority = "medium" then 0.1
  else if authority = "low" then 0.05
  else if authority = "unknown" then 0.0
  else 0.0

/-- `urgency_scores.get(urgency, 0.0)`. -/
def urgency_scores (urgency : String) : ℚ :=
  if urgency = "high" then 0.15
  else if urgency = "medium" then 0.1
  else if urgency = "low" then 0.0
  else if urgency = "unknown" then 0.05
  else 0.0

/-- `ClosingAgent._calculate_readiness_score` (accumulator style, as in the
source). -/
def calculate_readiness_score (buying_signals : ℕ) (objections_resolved : Bool)
    (engagement authority urgency : String) (risks : ℕ) : ℚ :=
  let score : ℚ := 0.0
  let score := score + min 0.3 ((buying_signals : ℚ) * 0.06)
  let score := if objections_resolved then score + 0.2 else score
  let score := score + engagement_scores engagement
  let score := score + authority_scores authority
  let score := score + urgency_scores urgency
  let score := score - min 0.25 ((risks : ℚ) * 0.05)
  max 0.0 (min 1.0 score)

/-- `ClosingAgent._get_closing_recommendation`. -/
def get_closing_recommendation (readiness_score : ℚ) : String :=
  if readiness_score ≥ 0.8 then "strong_close"
  else if readiness_score ≥ 0.6 then "trial_close"
  else if readiness_score ≥ 0.4 then "soft_close"
  else "more_discovery"

/-- The closing-readiness formula as written in the specification (section
4.6): clamp01 of the weighted sum, with the three label tables spelled out
by the spec.  Kept separate from the source embedding so the two can be
compared. -/
def readiness_score_spec (buying_signals : ℕ) (objections_resolved : Bool)
    (engagement authority urgency : String) (risks : ℕ) : ℚ :=
  let engagement_weight : ℚ :=
    if engagement = "high" then 0.2 else if engagement = "medium" then 0.1
    else if engagement = "low" then 0.0 else 0.0
  let authority_weight : ℚ :=
    if authority = "high" then 0.15 else if authority = "medium" then 0.1
    else if authority = "low" then 0.05 else if authority = "unknown" then 0.0 else 0.0
  let urgency_weight : ℚ :=
    if urgency = "high" then 0.15 else if urgency = "medium" then 0.1
    else if urgency = "low" then 0.0 else if urgency = "unknown" then 0.05 else 0.0
  max 0.0 (min 1.0
    (min 0.3 ((buying_signals : ℚ) * 0.06)
      + (if objections_resolved then 0.2 else 0.0)
      + engagement_weight + authority_weight + urgency_weight
      - min 0.25 ((risks : ℚ) * 0.05)))

/-- The response dictionary an agent returns to the orchestrator; `none`
models an absent key.  Only the keys the orchestrator reads through `.get`
are carried (`suggestion`, `type`, `confidence`, `alternatives`,
`next_actions`); the free-form `context` and `reasoning` entries are passed
through unvalidated and are not modelled. -/
structure AgentResponse where
  suggestion : Option String := none
  type : Option String := none
  confidence : Option ℚ := none
  alternatives : Option (List String) := none
  next_actions : Option (List String) := none
deriving DecidableEq

/-- `OpeningAgent._get_fallback_opening_response`. -/
def opening_fallback : AgentResponse :=
  { suggestion := some "Thank you for taking the time to speak with me today. I\x27m looking forward to learning more about your business and how we might be able to help."
    type := some "greeting"
    confidence := some 0.6
    alternatives := some
      ["Good morning! I appreciate you joining me today.",
       "Thank you for your time today. I\x27m excited to hear about your business."]
    next_actions := some
      ["Build rapport with the customer",
       "Ask about their current situation",
       "Set expectations for the conversation"] }

/-- `DiscoveryAgent._get_fallback_discovery_response`. -/
def discovery_fallback : AgentResponse :=
  { suggestion := some "Help me understand your current situation better. What\x27s the biggest challenge you\x27re facing right now?"
    type := some "open_question"
    confidence := some 0.6
    alternatives := some
      ["Tell me more about how you\x27re handling this today.",
       "What\x27s working well with your current approach, and what isn\x27t?"]
    next_actions := some
      ["Listen for pain points and challenges",
       "Identify emotional language",
       "Ask follow-up questions for clarity"] }

/-- `PitchAgent._get_fallback_pitch_response`. -/
def pitch_fallback : AgentResponse :=
  { suggestion := some "Based on what you\x27ve shared about your challenges, I believe our solution could make a significant impact. Let me show you how it directly addresses your specific needs."
    type := some "value_proposition"
    confidence := some 0.6
    alternatives := some
      ["Here\x27s how we can solve the problem you described.",
       "Let me demonstrate the value this would create for your business."]
    next_actions := some
      ["Watch for engagement and interest signals",
       "Listen for questions about the solution",
       "Prepare to address potential concerns"] }

/-- `ObjectionAgent._get_fallback_objection_response`. -/
def objection_fallback : AgentResponse :=
  { suggestion := some "I understand your concern, and I appreciate you bringing it up. Let me address that directly for you."
    type := some "acknowledge"
    confidence := some 0.6
    alternatives := some
      ["That\x27s a valid point. Let me explain how we handle that.",
       "I hear what you\x27re saying. Here\x27s my perspective on that."]
    next_actions := some
      ["Ask clarifying questions",
       "Understand the root concern",
       "Provide specific evidence or solutions"] }

/-- `ClosingAgent._get_fallback_closing_response`. -/
def closing_fallback : AgentResponse :=
  { suggestion := some "Based on everything we\x27ve discussed, I believe this solution is a great fit for your needs. Are you ready to move forward?"
    type := some "trial_close"
    confidence := some 0.6
    alternatives := some
      ["Does this solution address your main concerns?",
       "What questions do you have before we take the next step?"]
    next_actions := some
      ["Wait for customer response",
       "Address any final concerns",
       "Discuss next steps and timeline"] }

/-- `InterruptAgent._get_fallback_interrupt_response`: its dictionary has
none of the keys the orchestrator reads except `confidence` (it carries
`immediate_response`, `interrupt_type`, `priority`, `recovery_plan`,
`context_updates` instead). -/
def interrupt_fallback : AgentResponse :=
  { confidence := some 0.5 }

/-- The per-stage fallback each agent returns from `generate_suggestion` when
its generation-collaborator call throws (every agent wraps the call in
`try/except` and returns its `_get_fallback_*_response`). -/
def agent_fallback_response : String → AgentResponse
  | "opening" => opening_fallback
  | "discovery" => discovery_fallback
  | "pitch" => pitch_fallback
  | "objection" => objection_fallback
  | "closing" => closing_fallback
  | "interrupt" => interrupt_fallback
  | _ => discovery_fallback

/-- The agent-resolution step of
`ConversationOrchestrator.generate_next_suggestion`: `self.agents.get(stage)`
with fallback to the discovery agent when the stage is unrecognized. -/
def resolve_agent_key (current_stage : String) : String :=
  if current_stage ∈
      (["opening", "discovery", "pitch", "objection", "closing", "interrupt"] :
        List String)
  then current_stage else "discovery"

/-- `models/schemas.py` `Suggestion` (id, timestamp and the free-form
`context` map are not modelled). -/
structure Suggestion where
  session_id : String
  text : String
  type : String
  confidence : ℚ
  stage : String
  alternatives : List String
deriving DecidableEq

/-- The `type` values admitted by the pydantic `Literal` annotation of
`Suggestion.type`. -/
def suggestion_type_values : List String :=
  ["question", "statement", "objection_response", "closing"]

/-- Pydantic validation performed when `Suggestion(...)` is constructed:
`type` must be one of the four literals and `confidence` must lie in
`[0, 1]`; otherwise a `ValidationError` is raised. -/
def mkSuggestion (session_id text type_tag : String)
    (confidence : ℚ) (stage : String) (alternatives : List String) :
    Except String Suggestion :=
  if type_tag ∈ suggestion_type_values then
    if 0 ≤ confidence ∧ confidence ≤ 1 then
      Except.ok
        { session_id := session_id, text := text
          type := type_tag, confidence := confidence
          stage := stage, alternatives := alternatives }
    else Except.error "ValidationError: confidence"
  else Except.error "ValidationError: type"

/-- One entry of the `context_stack` of the orchestrator. -/
inductive ContextEntry where
  | interrupted (stage timestamp speaker text : String)
  | stage_transition (from_stage to_stage : String)
deriving DecidableEq

/-- The orchestrator session state mutated by the embedded operations
(`ConversationOrchestrator.__init__` also holds the profile, history and
timing fields, which the operations below never write except through the
collaborators that are out of scope here). -/
structure OrchestratorState where
  session_id : String
  current_stage : String
  context_stack : List ContextEntry
  last_suggestion : Option Suggestion
deriving DecidableEq

/-- `SuggestionResponse` of `models/schemas.py` (the free-form `context` map
is not modelled). -/
structure SuggestionResponse where
  suggestion : Suggestion
  next_actions : List String
deriving DecidableEq

/-- `ConversationOrchestrator.generate_next_suggestion`, parameterized by
the dictionary the stage agent returned.  The `try` block constructs the
`Suggestion` (pydantic-validated) and stores it as `last_suggestion`; on any
exception the `except` block constructs and returns the generic
generic fallback without touching `last_suggestion`; should that
construction itself raise, the exception would escape (`Except.error`). -/
def generate_next_suggestion (st : OrchestratorState) (agent_response : AgentResponse) :
    Except String (OrchestratorState × SuggestionResponse) :=
  match mkSuggestion st.session_id
      (agent_response.suggestion.getD "Continue the conversation naturally.")
      (agent_response.type.getD "statement")
      (agent_response.confidence.getD 0.8)
      st.current_stage
      (agent_response.alternatives.getD []) with
  | Except.ok suggestion =>
    Except.ok
      ({ st with last_suggestion := some suggestion },
       { suggestion := suggestion
         next_actions := agent_response.next_actions.getD [] })
  | Except.error _ =>
    match mkSuggestion st.session_id
        "That\x27s interesting. Could you tell me more about that?"
        "question" 0.5 st.current_stage
        ["I\x27d like to understand that better.", "Can you elaborate on that?"] with
    | Except.ok fallback_suggestion =>
      Except.ok
        (st,
         { suggestion := fallback_suggestion
           next_actions := ["Listen actively", "Ask follow-up questions"] })
    | Except.error e => Except.error e

/-- `generate_next_suggestion` under a forced generation-collaborator
failure: the resolved stage agent catches the collaborator exception itself
and hands the orchestrator its fixed fallback dictionary. -/
def generate_next_suggestion_on_collab_failure (st : OrchestratorState) :
    Except String (OrchestratorState × SuggestionResponse) :=
  generate_next_suggestion st (agent_fallback_response (resolve_agent_key st.current_stage))

/-- `ConversationOrchestrator.advance_conversation_stage`, parameterized by
the agent response used by the suggestion step.  The transition validation
only logs a warning (the transition is applied in every case); the stage is
assigned and the stack entry pushed before the suggestion step runs, so they
survive even when that step raises (the `except` branch, `success = false`).
-/
def advance_conversation_stage (st : OrchestratorState) (target_stage : String)
    (agent_response : AgentResponse) : OrchestratorState × Bool :=
  let st1 : OrchestratorState :=
    { st with
      current_stage := target_stage
      context_stack :=
        st.context_stack ++ [ContextEntry.stage_transition st.current_stage target_stage] }
  match generate_next_suggestion st1 agent_response with
  | Except.ok (st2, _) => (st2, true)
  | Except.error _ => (st1, false)

/-! ## Helper lemmas -/

theorem scalar_update_idem (old new_value : Option String) :
    scalarUpdate (scalarUpdate old new_value) new_value = scalarUpdate old new_value := by
  cases new_value with
  | none => rfl
  | some s =>
    by_cases h : s = "" <;> simp [scalarUpdate, h]

theorem list_merge_idem (old : List String) (new_value : Option (List String)) :
    listMerge (listMerge old new_value) new_value = listMerge old new_value := by
  cases new_value with
  | none => rfl
  | some l =>
    simp only [listMerge]
    have hnil :
        l.filter
          (fun x => !((old ++ l.filter (fun x => !(old.contains x))).contains x)) = [] := by
      refine List.filter_eq_nil_iff.mpr ?_
      intro a ha
      have hmem2 : a ∈ old ++ l.filter (fun x => !(old.contains x)) := by
        by_cases hmem : a ∈ old
        · exact List.mem_append_left _ hmem
        · refine List.mem_append_right _ ?_
          refine List.mem_filter.mpr ⟨ha, ?_⟩
          simp [List.contains, List.elem_eq_mem, hmem]
      simp [List.contains, List.elem_eq_mem, hmem2]
      exact fun hno => ⟨ha, hno⟩
    rw [hnil, List.append_nil]

theorem list_merge_nodup {old l : List String} (h1 : old.Nodup) (h2 : l.Nodup) :
    (old ++ l.filter (fun x => !(old.contains x))).Nodup := by
  rw [List.nodup_append]
  refine ⟨h1, h2.filter _, ?_⟩
  intro a ha hb
  rw [List.mem_filter] at hb
  have : a ∉ old := by simpa [List.contains, List.elem_eq_mem] using hb.2
  exact this ha

/-! ## Claims about the CustomerProfile merger -/

/-- Claim C7: merging the same insight map into a profile twice yields a
profile identical to merging it once — `update_customer_profile` is
idempotent in its insight argument. -/
theorem c7_merge_idempotent (profile : CustomerProfile) (new_insights : Insights) :
    update_customer_profile (update_customer_profile profile new_insights) new_insights
      = update_customer_profile profile new_insights := by
  simp only [update_customer_profile, scalar_update_idem, list_merge_idem]

/-- Claim C6, counterexample: the profile with no recorded facts has
duplicate-free lists, yet merging an insight map whose `pain_points` list
repeats an item yields a profile whose `pain_points` list contains the item
twice — the merge only filters against the existing profile, not within the
incoming list. -/
theorem c6_duplicate_insights_counterexample :
    ({} : CustomerProfile).pain_points.Nodup
    ∧ (update_customer_profile {} { pain_points := some ["a", "a"] }).pain_points
        = ["a", "a"]
    ∧ ¬ (update_customer_profile {} { pain_points := some ["a", "a"] }).pain_points.Nodup := by
  decide

/-- Claim C6, amended: when the `pain_points` and `interests` of the profile
are duplicate-free AND the `pain_points` and `interests` lists of the insight
map are themselves duplicate-free, the merged lists are duplicate-free. -/
theorem c6_merge_preserves_nodup (profile : CustomerProfile) (new_insights : Insights)
    (hp : profile.pain_points.Nodup) (hq : profile.interests.Nodup)
    (hip : (new_insights.pain_points.getD []).Nodup)
    (hii : (new_insights.interests.getD []).Nodup) :
    (update_customer_profile profile new_insights).pain_points.Nodup
    ∧ (update_customer_profile profile new_insights).interests.Nodup := by
  constructor
  · show (listMerge profile.pain_points new_insights.pain_points).Nodup
    cases h : new_insights.pain_points with
    | none => simpa [listMerge] using hp
    | some l =>
      rw [h] at hip
      simp only [Option.getD_some] at hip
      simpa [listMerge] using list_merge_nodup hp hip
  · show (listMerge profile.interests new_insights.interests).Nodup
    cases h : new_insights.interests with
    | none => simpa [listMerge] using hq
    | some l =>
      rw [h] at hii
      simp only [Option.getD_some] at hii
      simpa [listMerge] using list_merge_nodup hq hii

/-- Witness for the amended C6 at a concrete profile and insight map. -/
theorem c6_merge_preserves_nodup_witness :
    (update_customer_profile { pain_points := ["x"], interests := ["y"] }
        { pain_points := some ["x", "z"], interests := some ["w"] }).pain_points.Nodup
    ∧ (update_customer_profile { pain_points := ["x"], interests := ["y"] }
        { pain_points := some ["x", "z"], interests := some ["w"] }).interests.Nodup :=
  c6_merge_preserves_nodup
    { pain_points := ["x"], interests := ["y"] }
    { pain_points := some ["x", "z"], interests := some ["w"] }
    (by decide) (by decide) (by decide) (by decide)

/-! ## Claims about the Stage Completion Scorer and stage advance -/

/-- Claim C4: for every stage name (known or not), every message list
(including the empty one) and every customer profile, the stage-completion
score lies in the closed interval `[0, 1]`. -/
theorem c4_stage_completion_in_unit_interval (stage : String)
    (recent_messages : List Message) (customer_profile : CustomerProfile) :
    0 ≤ calculate_stage_completion stage recent_messages customer_profile
    ∧ calculate_stage_completion stage recent_messages customer_profile ≤ 1 := by
  unfold calculate_stage_completion
  split_ifs <;> constructor <;> first
    | positivity
    | (rw [div_le_one (by norm_num : (0:ℚ) < 2)];
       nlinarith [min_le_right ((customer_profile.pain_points.length : ℚ) * 0.3) (1.0 : ℚ)])
    | (norm_num; split_ifs <;> norm_num)
    | norm_num

/-- Claim C9: from the `closing` stage (whose legal next-stage set is empty)
`determine_next_stage` never advances, whatever the history and profile —
even when the completion score clears the 0.7 threshold the empty
`next_stages` list makes the code fall through to the non-advancing
return. -/
theorem c9_closing_never_advances (conversation_history : List Message)
    (customer_profile : CustomerProfile) :
    (determine_next_stage "closing" conversation_history customer_profile).should_advance
        = false
    ∧ sales_stage_next_stages.lookup "closing" = some [] := by
  refine ⟨?_, by rfl⟩
  have hl : sales_stage_next_stages.lookup "closing" = some [] := by rfl
  unfold determine_next_stage
  rw [hl]
  dsimp only
  split_ifs <;> rfl

/-! ## Claims about the closing readiness score -/

/-- Claim C3: the closing readiness score computed by the source equals the
clamped weighted-sum formula of the specification; the recommendation is the
documented band function of the score; and the concrete fixture
(buyingSignals 5, objections resolved, everything high, no risks) scores
exactly 1 and recommends a strong close. -/
theorem c3_readiness_score_matches_spec
    (buying_signals : ℕ) (objections_resolved : Bool)
    (engagement authority urgency : String) (risks : ℕ) (s : ℚ)
    (hb : buying_signals ≤ 5)
    (he : engagement ∈ (["high", "medium", "low"] : List String))
    (ha : authority ∈ (["high", "medium", "low", "unknown"] : List String))
    (hu : urgency ∈ (["high", "medium", "low", "unknown"] : List String)) :
    calculate_readiness_score buying_signals objections_resolved
        engagement authority urgency risks
      = readiness_score_spec buying_signals objections_resolved
          engagement authority urgency risks
    ∧ get_closing_recommendation s =
        (if s ≥ 0.8 then "strong_close" else if s ≥ 0.6 then "trial_close"
         else if s ≥ 0.4 then "soft_close" else "more_discovery")
    ∧ calculate_readiness_score 5 true "high" "high" "high" 0 = 1
    ∧ get_closing_recommendation (calculate_readiness_score 5 true "high" "high" "high" 0)
        = "strong_close" := by
  have hfix : calculate_readiness_score 5 true "high" "high" "high" 0 = 1 := by
    simp only [calculate_readiness_score, engagement_scores, authority_scores, urgency_scores]
    norm_num [min_def, max_def]
  have hrec :
      get_closing_recommendation (calculate_readiness_score 5 true "high" "high" "high" 0)
        = "strong_close" := by
    rw [hfix]
    norm_num [get_closing_recommendation]
  refine ⟨?_, rfl, hfix, hrec⟩
  cases objections_resolved <;>
    simp only [calculate_readiness_score, readiness_score_spec, engagement_scores,
      authority_scores, urgency_scores, Bool.false_eq_true, if_false, if_true] <;>
    ring_nf

/-- Witness for C3 at the fixture input (score 1, strong close). -/
theorem c3_readiness_score_witness :
    calculate_readiness_score 5 true "high" "high" "high" 0
      = readiness_score_spec 5 true "high" "high" "high" 0
    ∧ get_closing_recommendation 1 =
        (if (1 : ℚ) ≥ 0.8 then "strong_close" else if (1 : ℚ) ≥ 0.6 then "trial_close"
         else if (1 : ℚ) ≥ 0.4 then "soft_close" else "more_discovery")
    ∧ calculate_readiness_score 5 true "high" "high" "high" 0 = 1
    ∧ get_closing_recommendation (calculate_readiness_score 5 true "high" "high" "high" 0)
        = "strong_close" :=
  c3_readiness_score_matches_spec 5 true "high" "high" "high" 0 1
    (by decide) (by decide) (by decide) (by decide)

/-! ## Claims about the Interrupt Classifier -/

/-- Claim C5: on an utterance matching no indicator phrase the selection
loop leaves the type at its initial value `general`, but the priority lookup
`self.interrupt_types["general"]` then raises `KeyError` because the type
table has no `general` entry — the classifier does not return a `general`
classification, it throws. -/
theorem c5_zero_match_classification_keyerror :
    interrupt_types.lookup "general" = none
    ∧ pick_interrupt_type (pyStrip (pyLower "Okay then")) = ("general", 0)
    ∧ analyze_interruption "Okay then" "discovery" = none := by
  decide

/-- Claim C8, counterexample: this utterance contains the word `urgent`, yet
its three tangent indicators outscore the single urgency indicator, so the
classification is `tangent` with priority `medium` (not `critical`) and
`should_pause_main_conversation` is `false` (not `true`). -/
theorem c8_urgent_not_critical_counterexample :
    containsStr (pyStrip (pyLower "By the way, also, speaking of urgent matters")) "urgent" = true
    ∧ (analyze_interruption "By the way, also, speaking of urgent matters" "discovery").map
        (fun a => a.priority) = some "medium"
    ∧ (analyze_interruption "By the way, also, speaking of urgent matters" "discovery").map
        should_pause_main_conversation = some false := by
  decide

/-- Every indicator phrase of an interrupt type other than `urgency`. -/
def non_urgency_indicators : List String :=
  ((interrupt_types.filter (fun p => p.1 ≠ "urgency")).map
    (fun p => p.2.indicators)).flatten

theorem indicator_score_eq_zero {text_lower : String} {info : InterruptTypeInfo}
    (h : ∀ i ∈ info.indicators, containsStr text_lower i = false) :
    indicatorScore text_lower info = 0 := by
  unfold indicatorScore
  rw [List.filter_eq_nil_iff.mpr (fun a ha => by simp [h a ha])]
  rfl

/-- Claim C8, amended: for every utterance whose lowered, stripped text
contains `urgent` and contains no indicator phrase of any non-urgency
interrupt type, the classification has type `urgency`, priority `critical`,
and `should_pause_main_conversation` returns true. -/
theorem c8_urgent_without_other_indicators (text current_stage : String)
    (h1 : containsStr (pyStrip (pyLower text)) "urgent" = true)
    (h2 : ∀ indicator ∈ non_urgency_indicators,
        containsStr (pyStrip (pyLower text)) indicator = false) :
    ∃ a, analyze_interruption text current_stage = some a
      ∧ a.type = "urgency"
      ∧ a.priority = "critical"
      ∧ should_pause_main_conversation a = true := by
  have hzero : ∀ info : InterruptTypeInfo,
      (∀ i ∈ info.indicators, containsStr (pyStrip (pyLower text)) i = false) →
      indicatorScore (pyStrip (pyLower text)) info = 0 :=
    fun info h => indicator_score_eq_zero h
  have hq : indicatorScore (pyStrip (pyLower text))
      ⟨["?", "how", "what", "when", "where", "why", "can you"],
       "Answer directly then redirect", "high"⟩ = 0 := by
    refine hzero _ (fun i hi => h2 i ?_)
    revert hi
    have hs : ∀ i ∈ (["?", "how", "what", "when", "where", "why", "can you"] : List String),
        i ∈ non_urgency_indicators := by decide
    exact hs i
  have hob : indicatorScore (pyStrip (pyLower text))
      ⟨["but", "however", "concern", "worry", "issue", "problem"],
       "Acknowledge, address, then continue", "high"⟩ = 0 := by
    refine hzero _ (fun i hi => h2 i ?_)
    revert hi
    have hs : ∀ i ∈ (["but", "however", "concern", "worry", "issue", "problem"] : List String),
        i ∈ non_urgency_indicators := by decide
    exact hs i
  have hta : indicatorScore (pyStrip (pyLower text))
      ⟨["by the way", "also", "speaking of", "reminds me"],
       "Acknowledge and redirect back", "medium"⟩ = 0 := by
    refine hzero _ (fun i hi => h2 i ?_)
    revert hi
    have hs : ∀ i ∈ (["by the way", "also", "speaking of", "reminds me"] : List String),
        i ∈ non_urgency_indicators := by decide
    exact hs i
  have hcl : indicatorScore (pyStrip (pyLower text))
      ⟨["wait", "hold on", "confused", "don\x27t understand"],
       "Stop and clarify immediately", "high"⟩ = 0 := by
    refine hzero _ (fun i hi => h2 i ?_)
    revert hi
    have hs : ∀ i ∈ (["wait", "hold on", "confused", "don\x27t understand"] : List String),
        i ∈ non_urgency_indicators := by decide
    exact hs i
  have hem : indicatorScore (pyStrip (pyLower text))
      ⟨["frustrated", "angry", "upset", "disappointed"],
       "Acknowledge emotion and empathize", "critical"⟩ = 0 := by
    refine hzero _ (fun i hi => h2 i ?_)
    revert hi
    have hs : ∀ i ∈ (["frustrated", "angry", "upset", "disappointed"] : List String),
        i ∈ non_urgency_indicators := by decide
    exact hs i
  have hin : indicatorScore (pyStrip (pyLower text))
      ⟨["just to let you know", "forgot to mention", "by the way"],
       "Note information and continue", "low"⟩ = 0 := by
    refine hzero _ (fun i hi => h2 i ?_)
    revert hi
    have hs : ∀ i ∈
        (["just to let you know", "forgot to mention", "by the way"] : List String),
        i ∈ non_urgency_indicators := by decide
    exact hs i
  have hpo : indicatorScore (pyStrip (pyLower text))
      ⟨["great", "excellent", "love", "perfect", "amazing"],
       "Acknowledge positively and build momentum", "medium"⟩ = 0 := by
    refine hzero _ (fun i hi => h2 i ?_)
    revert hi
    have hs : ∀ i ∈ (["great", "excellent", "love", "perfect", "amazing"] : List String),
        i ∈ non_urgency_indicators := by decide
    exact hs i
  have hu : 0 < indicatorScore (pyStrip (pyLower text))
      ⟨["urgent", "important", "immediately", "asap", "emergency"],
       "Address urgency then assess impact", "critical"⟩ := by
    unfold indicatorScore
    refine List.length_pos.mpr (List.ne_nil_of_mem (a := "urgent") ?_)
    exact List.mem_filter.mpr ⟨by decide, h1⟩
  have hpick : pick_interrupt_type (pyStrip (pyLower text)) =
      ("urgency", indicatorScore (pyStrip (pyLower text))
        ⟨["urgent", "important", "immediately", "asap", "emergency"],
         "Address urgency then assess impact", "critical"⟩) := by
    unfold pick_interrupt_type interrupt_types
    simp only [List.foldl_cons, List.foldl_nil, hq, hob, hta, hcl, hem, hin, hpo]
    simp [hu, Nat.not_lt_zero]
  refine ⟨{ type := "urgency", priority := "critical"
            confidence := min 0.9 (0.5 + ((indicatorScore (pyStrip (pyLower text))
              ⟨["urgent", "important", "immediately", "asap", "emergency"],
               "Address urgency then assess impact", "critical"⟩ : ℕ) : ℚ) * 0.1)
            emotional_state := assess_emotional_state (pyStrip (pyLower text))
            flow_impact := assess_flow_impact "urgency" (pyStrip (pyLower text))
            topic_relevance := assess_topic_relevance (pyStrip (pyLower text)) current_stage },
          ?_, rfl, rfl, rfl⟩
  unfold analyze_interruption
  dsimp only
  rw [hpick]
  rfl

/-- Witness for the amended C8 at the utterance `urgent`. -/
theorem c8_urgent_witness :
    ∃ a, analyze_interruption "urgent" "opening" = some a
      ∧ a.type = "urgency"
      ∧ a.priority = "critical"
      ∧ should_pause_main_conversation a = true :=
  c8_urgent_without_other_indicators "urgent" "opening" (by decide) (by decide)

/-! ## Claims about the suggestion pipeline and stage advance -/

/-- The fallback `Suggestion` and `SuggestionResponse` built in the `except`
branch of `ConversationOrchestrator.generate_next_suggestion`. -/
def orchestrator_fallback_response (st : OrchestratorState) : SuggestionResponse :=
  { suggestion :=
      { session_id := st.session_id
        text := "That\x27s interesting. Could you tell me more about that?"
        type := "question"
        confidence := 0.5
        stage := st.current_stage
        alternatives :=
          ["I\x27d like to understand that better.", "Can you elaborate on that?"] }
    next_actions := ["Listen actively", "Ask follow-up questions"] }

/-- Claim C1: under a forced generation-collaborator failure at stage
`discovery`, the discovery agent hands back its documented fallback with
confidence 0.6 and type `open_question`, but `open_question` violates the
four-value `Literal` of `Suggestion.type`, so the pydantic construction
raises and the orchestrator returns its own generic fallback with
confidence 0.5 and type `question` instead (no exception escapes).  The
claimed behaviour — surfacing the agent fallback with confidence 0.6 —
never happens. -/
theorem c1_collab_failure_returns_generic_fallback :
    discovery_fallback.confidence = some 0.6
    ∧ discovery_fallback.type = some "open_question"
    ∧ (generate_next_suggestion_on_collab_failure
        { session_id := "session-1", current_stage := "discovery"
          context_stack := [], last_suggestion := none }).toOption.map
        (fun p => (p.2.suggestion.confidence, p.2.suggestion.type))
      = some (0.5, "question") := by
  refine ⟨rfl, rfl, ?_⟩
  with_unfolding_all rfl

/-- Claim C2, counterexample: `advance_conversation_stage` stores any target
verbatim — advancing to `interrupt` from the initial state leaves
`current_stage = "interrupt"`, which is not one of the five real stage
names. -/
theorem c2_advance_stage_interrupt_counterexample :
    (advance_conversation_stage
        { session_id := "session-1", current_stage := "opening"
          context_stack := [], last_suggestion := none }
        "interrupt" interrupt_fallback).1.current_stage = "interrupt"
    ∧ "interrupt" ∉
        (["opening", "discovery", "pitch", "objection", "closing"] : List String) := by
  refine ⟨by with_unfolding_all rfl, by decide⟩

theorem generate_next_suggestion_preserves_stage (st : OrchestratorState)
    (agent_response : AgentResponse) :
    ∀ p, generate_next_suggestion st agent_response = Except.ok p →
      p.1.current_stage = st.current_stage := by
  intro p hp
  unfold generate_next_suggestion at hp
  split at hp
  · cases hp
    rfl
  · split at hp
    · cases hp
      rfl
    · cases hp

/-- Claim C2, amended: after `advance_conversation_stage(target)` the
field `current_stage` equals the target string exactly, whether or not
the transition is legal; so it is one of the five real stage names only when
the caller passes one (passing `interrupt` stores `interrupt`). -/
theorem c2_advance_stage_sets_target (st : OrchestratorState) (target_stage : String)
    (agent_response : AgentResponse) :
    (advance_conversation_stage st target_stage agent_response).1.current_stage
      = target_stage := by
  unfold advance_conversation_stage
  dsimp only
  split
  · rename_i st2 snd heq
    exact generate_next_suggestion_preserves_stage _ _ _ heq
  · rfl

/-- Claim C10: whenever the `try` block of `generate_next_suggestion` raises
while constructing the `Suggestion` (after the agent call), the session
state — in particular `last_suggestion` — is left untouched: the generic
fallback response is returned with the state unchanged, so the fallback is
never stored as `last_suggestion`. -/
theorem c10_error_path_preserves_last_suggestion (st : OrchestratorState)
    (agent_response : AgentResponse) (e : String)
    (h : mkSuggestion st.session_id
        (agent_response.suggestion.getD "Continue the conversation naturally.")
        (agent_response.type.getD "statement")
        (agent_response.confidence.getD 0.8)
        st.current_stage
        (agent_response.alternatives.getD []) = Except.error e) :
    generate_next_suggestion st agent_response
      = Except.ok (st, orchestrator_fallback_response st) := by
  unfold generate_next_suggestion
  rw [h]
  with_unfolding_all rfl

/-- Witness for C10: a session holding a previous suggestion, fed the
fallback of the closing agent (whose `trial_close` type tag fails the pydantic
`Literal` check), keeps that previous suggestion untouched. -/
theorem c10_error_path_witness :
    generate_next_suggestion
        { session_id := "session-2", current_stage := "closing"
          context_stack := []
          last_suggestion := some
            { session_id := "session-2", text := "earlier suggestion"
              type := "question", confidence := 0.9, stage := "closing"
              alternatives := [] } }
        closing_fallback
      = Except.ok
          ({ session_id := "session-2", current_stage := "closing"
             context_stack := []
             last_suggestion := some
               { session_id := "session-2", text := "earlier suggestion"
                 type := "question", confidence := 0.9, stage := "closing"
                 alternatives := [] } },
           orchestrator_fallback_response
             { session_id := "session-2", current_stage := "closing"
               context_stack := []
               last_suggestion := some
                 { session_id := "session-2", text := "earlier suggestion"
                   type := "question", confidence := 0.9, stage := "closing"
                   alternatives := [] } }) :=
  c10_error_path_preserves_last_suggestion _ closing_fallback
    "ValidationError: type" rfl

/-- Witness for C7 at a concrete profile and insight map. -/
theorem c7_merge_idempotent_witness :
    update_customer_profile
        (update_customer_profile { pain_points := ["slow sales"] }
          { name := some "Ada", pain_points := some ["slow sales", "costs"] })
        { name := some "Ada", pain_points := some ["slow sales", "costs"] }
      = update_customer_profile { pain_points := ["slow sales"] }
          { name := some "Ada", pain_points := some ["slow sales", "costs"] } :=
  c7_merge_idempotent { pain_points := ["slow sales"] }
    { name := some "Ada", pain_points := some ["slow sales", "costs"] }

/-- Witness for C4 at an unknown stage with empty history. -/
theorem c4_stage_completion_witness :
    0 ≤ calculate_stage_completion "no-such-stage" [] {}
    ∧ calculate_stage_completion "no-such-stage" [] {} ≤ 1 :=
  c4_stage_completion_in_unit_interval "no-such-stage" [] {}

/-- Witness for C9 at a history whose customer message commits. -/
theorem c9_closing_never_advances_witness :
    (determine_next_stage "closing"
        [{ speaker := "customer", text := "yes, we want to proceed", stage := "closing" }]
        {}).should_advance = false
    ∧ sales_stage_next_stages.lookup "closing" = some [] :=
  c9_closing_never_advances
    [{ speaker := "customer", text := "yes, we want to proceed", stage := "closing" }] {}

/-- Witness for the amended C2 at the `interrupt` target. -/
theorem c2_advance_stage_sets_target_witness :
    (advance_conversation_stage
        { session_id := "session-3", current_stage := "pitch"
          context_stack := [], last_suggestion := none }
        "interrupt" pitch_fallback).1.current_stage = "interrupt" :=
  c2_advance_stage_sets_target
    { session_id := "session-3", current_stage := "pitch"
      context_stack := [], last_suggestion := none }
    "interrupt" pitch_fallback

end SalesEngine
